import Mathlib

/-!
Shallow embedding of `evadb/udfs/chatgpt.py` (the `ChatGPT` UDF): the
`setup` method, the `forward` method and its inner `completion_with_backoff`
helper, together with the data they manipulate.

Modelling conventions:
* A pandas dataframe is a list of column names plus a list of columns,
  each column a list of cell strings (`DataFrame`).
* The remote `openai.ChatCompletion.create` call is modelled by an oracle
  `Nat → CallResult`: attempt number `a` of a given row either returns a
  response whose extracted text is `content` (`CallResult.success`) or
  raises an exception whose `f"{e}"` rendering is `err`
  (`CallResult.failure`).  Exceptions are identified with their string
  rendering, so `f"{e}"` is the identity on the model.
* The `@retry(tries=6, delay=20)` decorator (PyPI `retry` package) is
  modelled by `retryRun`: call the body; on a raised exception sleep
  `delay` and call it again, up to `tries` calls in total, re-raising the
  last exception.  `RetryResult` records the final outcome, the number of
  attempts actually made and the sleeps performed between attempts.
* `ConfigurationManager().get_value` is a function argument
  `cfg : String → String → String`, and `os.environ.get` is
  `env : String → Option String`.
* Python exceptions that escape a method are `Except EvaError` results:
  a failed `assert` is `EvaError.assertionError msg`, an out-of-bounds
  pandas/`Index` access is `EvaError.indexError`.
-/

namespace EvaDB

/-- Outcome of one attempted `openai.ChatCompletion.create` call:
either a response whose `choices[0].message.content` is `content`,
or an exception rendered by `f"{e}"` as `err`. -/
inductive CallResult where
  | success (content : String)
  | failure (err : String)
deriving Repr, DecidableEq

/-- A Python exception escaping a modelled method. -/
inductive EvaError where
  | assertionError (msg : String)
  | indexError
  | remoteError (e : String)
deriving Repr, DecidableEq

/-- One role-tagged chat message, an element of `params["messages"]`. -/
structure Message where
  role : String
  content : String
deriving Repr, DecidableEq

/-- The keyword arguments passed to `completion_with_backoff` for one row. -/
structure ChatParams where
  model : String
  temperature : Rat
  messages : List Message
deriving Repr, DecidableEq

/-- A pandas dataframe: column names and column-major string data. -/
structure DataFrame where
  names : List String
  cols : List (List String)
deriving Repr, DecidableEq

/-- Result of running a function under the `retry` decorator: the final
outcome (`.error` when the last allowed attempt still raised), how many
attempts were made, and the sleep durations between consecutive attempts. -/
structure RetryResult (ε α : Type) where
  outcome : Except ε α
  attempts : Nat
  delays : List Nat

/-- `retryAttempt f delay i fuel`: attempt `f i`; on an exception, with
`fuel` retries left, sleep `delay` and continue with attempt `i + 1`.
Modelled from the documented behaviour of the PyPI `retry` decorator. -/
def retryAttempt (f : Nat → Except ε α) (delay : Nat) : Nat → Nat → RetryResult ε α
  | i, 0 =>
    match f i with
    | .ok a => ⟨.ok a, 1, []⟩
    | .error e => ⟨.error e, 1, []⟩
  | i, fuel + 1 =>
    match f i with
    | .ok a => ⟨.ok a, 1, []⟩
    | .error _ =>
      let r := retryAttempt f delay (i + 1) fuel
      ⟨r.outcome, r.attempts + 1, delay :: r.delays⟩

/-- `@retry(tries, delay)` applied to a body `f` (indexed by attempt number):
up to `tries` attempts in total with `delay` between consecutive ones. -/
def retryRun (tries delay : Nat) (f : Nat → Except ε α) : RetryResult ε α :=
  retryAttempt f delay 0 (tries - 1)

/-- The body of `completion_with_backoff`:
`try: answer = create(**kwargs).choices[0].message.content`
`except Exception as e: answer = f"{e}"` and then `return answer`.
The body itself never raises, whatever the remote call does. -/
def completionBody (call : CallResult) : Except String String :=
  let answer :=
    match call with
    | .success content => content
    | .failure e => e
  .ok answer

/-- `completion_with_backoff` for one row, under `@retry(tries=6, delay=20)`;
`orc a` is what the remote call does on attempt `a` of this row. -/
def completion_with_backoff (orc : Nat → CallResult) : RetryResult String String :=
  retryRun 6 20 (fun a => completionBody (orc a))

/-- The answer the first attempt of `completion_with_backoff` produces. -/
def firstAnswer (orc : Nat → CallResult) : String :=
  match orc 0 with
  | .success content => content
  | .failure e => e

/-- The supported chat-completion models (`_VALID_CHAT_COMPLETION_MODEL`). -/
def _VALID_CHAT_COMPLETION_MODEL : List String :=
  ["gpt-4", "gpt-4-0314", "gpt-4-32k", "gpt-4-32k-0314",
   "gpt-3.5-turbo", "gpt-3.5-turbo-0301"]

/-- The adapter state `setup` writes: `self.model` and `self.temperature`,
`none` while the attribute has not been assigned yet. -/
structure ChatGPTState where
  model : Option String
  temperature : Option Rat
deriving Repr, DecidableEq

/-- `ChatGPT.setup`: `assert model in _VALID_CHAT_COMPLETION_MODEL` and only
then assign `self.model` and `self.temperature`.  Returns the state after
the call plus the raised exception, if any. -/
def setup (st : ChatGPTState) (model : String := "gpt-3.5-turbo")
    (temperature : Rat := 0) : ChatGPTState × Option EvaError :=
  if model ∈ _VALID_CHAT_COMPLETION_MODEL then
    ({ model := some model, temperature := some temperature }, none)
  else
    (st, some (.assertionError ("Unsupported ChatGPT " ++ model)))

/-- The assertion message of the API-key check in `forward`. -/
def apiKeyErrMsg : String :=
  "Please set your OpenAI API key in evadb.yml file (third_party, open_api_key) or environment variable (OPENAI_KEY)"

/-- Credential resolution in `forward`:
`openai.api_key = ConfigurationManager().get_value("third_party", "OPENAI_KEY")`
and, when that is empty, `os.environ.get("OPENAI_KEY", "")`. -/
def apiKeyOf (cfg : String → String → String) (env : String → Option String) : String :=
  let fromConfig := cfg "third_party" "OPENAI_KEY"
  if fromConfig.length = 0 then (env "OPENAI_KEY").getD "" else fromConfig

/-- The default system instruction used when the batch has no prompt column. -/
def defaultSysPrompt : String :=
  "You are a helpful assistant that accomplishes user tasks."

/-- `queries`: column 0 in both branches of the column-count test. -/
def queriesOf (cols : List (List String)) : List String :=
  cols.headD []

/-- `content`: `text_df.iloc[:, 1]` when there is more than one column,
otherwise the same series as `queries`. -/
def contentColOf (cols : List (List String)) : List String :=
  if cols.length > 1 then cols.getD 1 [] else cols.headD []

/-- The `(query, content)` pairs the row loop `zip(queries, content)` visits. -/
def rowsOf (df : DataFrame) : List (String × String) :=
  (queriesOf df.cols).zip (contentColOf df.cols)

/-- `prompt = text_df.iloc[0, 2]` when there are more than two columns
(an `IndexError` when that column has no row 0), `None` otherwise. -/
def promptOf (cols : List (List String)) : Except EvaError (Option String) :=
  if cols.length > 2 then
    match (cols.getD 2 [])[0]? with
    | some p => .ok (some p)
    | none => .error .indexError
  else
    .ok none

/-- The `params` dict built for one row: the model and temperature from
`setup`, then the system message (the batch prompt if present, else the
default instruction) followed by the two user messages. -/
def rowParams (model : String) (temperature : Rat) (prompt : Option String)
    (query content : String) : ChatParams :=
  { model := model
    temperature := temperature
    messages :=
      [ { role := "system"
          content :=
            match prompt with
            | some p => p
            | none => defaultSysPrompt },
        { role := "user", content := "Here is some context : " ++ content },
        { role := "user", content := "Complete the following task: " ++ query } ] }

/-- What `forward` did for one row: the request passed to
`completion_with_backoff`, the answer appended to `results`, and the
attempt count and inter-attempt sleeps of the underlying retry loop. -/
structure RowLog where
  params : ChatParams
  answer : String
  attempts : Nat
  delays : List Nat
deriving Repr, DecidableEq

/-- The row loop of `forward`: for the `j`-th remaining `(query, content)`
pair, row index `i + j` overall, build `params`, call
`completion_with_backoff` (attempt oracle `orc (i + j)`), and append the
answer; a re-raised exception from the retry loop aborts the whole batch. -/
def forwardLoop (model : String) (temperature : Rat) (prompt : Option String)
    (orc : Nat → Nat → CallResult) :
    List (String × String) → Nat → Except String (List RowLog)
  | [], _ => .ok []
  | (query, content) :: rest, i =>
    let params := rowParams model temperature prompt query content
    let r := completion_with_backoff (orc i)
    match r.outcome with
    | .error e => .error e
    | .ok answer =>
      (forwardLoop model temperature prompt orc rest (i + 1)).map
        (fun tail => ⟨params, answer, r.attempts, r.delays⟩ :: tail)

/-- Everything observable about a completed `forward` call: the returned
dataframe, the per-row request/answer log, and the `openai.api_key` set. -/
structure ForwardOutput where
  output : DataFrame
  log : List RowLog
  apiKey : String
deriving Repr, DecidableEq

/-- `ChatGPT.forward`: resolve the API key (configuration store, then
environment, then a fatal assertion), select `queries`/`content`/`prompt`
from the batch columns, run the row loop, and assemble the single-column
`response` dataframe.  An empty column list makes `text_df.columns[0]`
raise `IndexError` before any remote call, as in pandas. -/
def forward (model : String) (temperature : Rat)
    (cfg : String → String → String) (env : String → Option String)
    (orc : Nat → Nat → CallResult) (text_df : DataFrame) :
    Except EvaError ForwardOutput :=
  let apiKey := apiKeyOf cfg env
  if apiKey.length = 0 then
    .error (.assertionError apiKeyErrMsg)
  else
    match text_df.cols with
    | [] => .error .indexError
    | _ :: _ =>
      match promptOf text_df.cols with
      | .error e => .error e
      | .ok prompt =>
        match forwardLoop model temperature prompt orc (rowsOf text_df) 0 with
        | .error e => .error (.remoteError e)
        | .ok log =>
          .ok ⟨⟨["response"], [log.map RowLog.answer]⟩, log, apiKey⟩

/-- The closed form of the row loop when no exception escapes the retry
wrapper: each row makes exactly one attempt (the body catches everything),
answers with the first attempt's value, and sleeps never. -/
def logSpec (model : String) (temperature : Rat) (prompt : Option String)
    (orc : Nat → Nat → CallResult) :
    List (String × String) → Nat → List RowLog
  | [], _ => []
  | (query, content) :: rest, i =>
    ⟨rowParams model temperature prompt query content, firstAnswer (orc i), 1, []⟩ ::
      logSpec model temperature prompt orc rest (i + 1)

/-! ### Helper lemmas -/

/-- Because `completionBody` converts every exception into an answer, the
retry wrapper returns after the very first attempt: the answer is the first
attempt's value, one attempt is made, and no inter-attempt sleep happens. -/
theorem completion_with_backoff_eq (orc : Nat → CallResult) :
    completion_with_backoff orc = ⟨.ok (firstAnswer orc), 1, []⟩ := rfl

/-- The row loop never propagates an exception and equals its closed form. -/
theorem forwardLoop_eq (model : String) (temperature : Rat)
    (prompt : Option String) (orc : Nat → Nat → CallResult) :
    ∀ (rows : List (String × String)) (i : Nat),
      forwardLoop model temperature prompt orc rows i =
        .ok (logSpec model temperature prompt orc rows i)
  | [], _ => rfl
  | (query, content) :: rest, i => by
    rw [forwardLoop, logSpec, completion_with_backoff_eq,
      forwardLoop_eq model temperature prompt orc rest (i + 1)]
    rfl

theorem logSpec_length (model : String) (temperature : Rat)
    (prompt : Option String) (orc : Nat → Nat → CallResult) :
    ∀ (rows : List (String × String)) (i : Nat),
      (logSpec model temperature prompt orc rows i).length = rows.length
  | [], _ => rfl
  | _ :: rest, i => by
    rw [logSpec, List.length_cons, List.length_cons,
      logSpec_length model temperature prompt orc rest (i + 1)]

theorem logSpec_getElem? (model : String) (temperature : Rat)
    (prompt : Option String) (orc : Nat → Nat → CallResult) :
    ∀ (rows : List (String × String)) (i j : Nat),
      (logSpec model temperature prompt orc rows i)[j]? =
        rows[j]?.map (fun qc =>
          ⟨rowParams model temperature prompt qc.1 qc.2,
           firstAnswer (orc (i + j)), 1, []⟩)
  | [], _, _ => by simp [logSpec]
  | (query, content) :: rest, i, 0 => by simp [logSpec]
  | (query, content) :: rest, i, j + 1 => by
    rw [logSpec]
    simp only [List.getElem?_cons_succ]
    rw [logSpec_getElem? model temperature prompt orc rest (i + 1) j]
    have h : i + 1 + j = i + (j + 1) := by omega
    rw [h]

/-- Every entry of the closed-form log carries a request whose first message
is the system message determined by the batch prompt. -/
theorem logSpec_sys (model : String) (temperature : Rat)
    (prompt : Option String) (orc : Nat → Nat → CallResult) :
    ∀ (rows : List (String × String)) (i : Nat),
      ∀ l ∈ logSpec model temperature prompt orc rows i,
        l.params.messages[0]? =
          some ⟨"system", prompt.getD defaultSysPrompt⟩
  | [], _ => by simp [logSpec]
  | (query, content) :: rest, i => by
    intro l hl
    rw [logSpec] at hl
    rcases List.mem_cons.mp hl with h | h
    · subst h
      cases prompt <;> rfl
    · exact logSpec_sys model temperature prompt orc rest (i + 1) l h

theorem zip_getElem?_self {α : Type} (l : List α) :
    ∀ (i : Nat), (l.zip l)[i]? = l[i]?.map (fun a => (a, a)) := by
  induction l with
  | nil => intro i; simp
  | cons a rest ih =>
    intro i
    cases i with
    | zero => simp
    | succ j => simpa using ih j

theorem zip_getElem?_of {α β : Type} :
    ∀ (qs : List α) (cs : List β) (k : Nat) (qv : α) (cv : β),
      qs[k]? = some qv → cs[k]? = some cv → (qs.zip cs)[k]? = some (qv, cv)
  | [], _, k, _, _ => by simp
  | _ :: _, [], k, _, _ => by simp
  | x :: xs, y :: ys, 0, qv, cv => by
    intro ha hb
    simp at ha hb
    simp [ha, hb]
  | x :: xs, y :: ys, j + 1, qv, cv => by
    intro ha hb
    simp only [List.getElem?_cons_succ] at ha hb
    simpa using zip_getElem?_of xs ys j qv cv ha hb

/-- A failed API-key assertion aborts `forward` with the descriptive
configuration error, before anything else happens. -/
theorem forward_err_key (model : String) (temperature : Rat)
    (cfg : String → String → String) (env : String → Option String)
    (orc : Nat → Nat → CallResult) (df : DataFrame)
    (h : (apiKeyOf cfg env).length = 0) :
    forward model temperature cfg env orc df =
      .error (.assertionError apiKeyErrMsg) := by
  rw [forward]
  simp [h]

theorem forward_err_nil (model : String) (temperature : Rat)
    (cfg : String → String → String) (env : String → Option String)
    (orc : Nat → Nat → CallResult) (df : DataFrame)
    (hk : ¬ (apiKeyOf cfg env).length = 0) (hc : df.cols = []) :
    forward model temperature cfg env orc df = .error .indexError := by
  rw [forward]
  simp [hk, hc]

theorem forward_err_prompt (model : String) (temperature : Rat)
    (cfg : String → String → String) (env : String → Option String)
    (orc : Nat → Nat → CallResult) (df : DataFrame)
    (hk : ¬ (apiKeyOf cfg env).length = 0)
    (c0 : List String) (rest : List (List String)) (hc : df.cols = c0 :: rest)
    (e : EvaError) (hp : promptOf df.cols = .error e) :
    forward model temperature cfg env orc df = .error e := by
  rw [forward]
  simp only [hc] at hp ⊢
  simp [hk, hp]

/-- The closed form of a completed `forward` call. -/
theorem forward_ok_eq (model : String) (temperature : Rat)
    (cfg : String → String → String) (env : String → Option String)
    (orc : Nat → Nat → CallResult) (df : DataFrame)
    (hk : ¬ (apiKeyOf cfg env).length = 0)
    (c0 : List String) (rest : List (List String)) (hc : df.cols = c0 :: rest)
    (p : Option String) (hp : promptOf df.cols = .ok p) :
    forward model temperature cfg env orc df =
      .ok ⟨⟨["response"],
            [(logSpec model temperature p orc (rowsOf df) 0).map RowLog.answer]⟩,
           logSpec model temperature p orc (rowsOf df) 0, apiKeyOf cfg env⟩ := by
  rw [forward]
  simp only [hc] at hp ⊢
  simp only [hk, if_neg hk, hp, forwardLoop_eq]
  have hr : rowsOf df = rowsOf ⟨df.names, c0 :: rest⟩ := by rw [rowsOf, rowsOf, hc]
  simp [hr, rowsOf]

/-- Inversion: everything a successful `forward` call implies about its
input and its result. -/
theorem forward_ok_inv (model : String) (temperature : Rat)
    (cfg : String → String → String) (env : String → Option String)
    (orc : Nat → Nat → CallResult) (df : DataFrame) (out : ForwardOutput)
    (hout : forward model temperature cfg env orc df = .ok out) :
    (apiKeyOf cfg env).length ≠ 0 ∧ df.cols ≠ [] ∧
      ∃ p, promptOf df.cols = .ok p ∧
        out = ⟨⟨["response"],
                [(logSpec model temperature p orc (rowsOf df) 0).map RowLog.answer]⟩,
               logSpec model temperature p orc (rowsOf df) 0, apiKeyOf cfg env⟩ := by
  by_cases hk : (apiKeyOf cfg env).length = 0
  · rw [forward_err_key model temperature cfg env orc df hk] at hout
    exact absurd hout (by simp)
  rcases hc : df.cols with _ | ⟨c0, rest⟩
  · rw [forward_err_nil model temperature cfg env orc df hk hc] at hout
    exact absurd hout (by simp)
  rcases hp : promptOf df.cols with e | p
  · rw [forward_err_prompt model temperature cfg env orc df hk c0 rest hc e hp] at hout
    exact absurd hout (by simp)
  · rw [forward_ok_eq model temperature cfg env orc df hk c0 rest hc p hp] at hout
    rw [hc] at hp
    refine ⟨hk, by simp, p, hp, ?_⟩
    exact (Except.ok.inj hout).symm

theorem rowsOf_length (df : DataFrame) (n : Nat)
    (hwf : ∀ col ∈ df.cols, col.length = n) (hne : df.cols ≠ []) :
    (rowsOf df).length = n := by
  rcases hcs : df.cols with _ | ⟨c0, rest⟩
  · exact absurd hcs hne
  have h0 : c0.length = n := hwf c0 (by rw [hcs]; exact List.mem_cons_self c0 rest)
  rcases rest with _ | ⟨c1, rest2⟩
  · simp [rowsOf, queriesOf, contentColOf, hcs, h0]
  · have h1 : c1.length = n :=
      hwf c1 (by
        rw [hcs]
        exact List.mem_cons_of_mem _ (List.mem_cons_self c1 rest2))
    have hgt : (c0 :: c1 :: rest2).length > 1 := by simp
    simp [rowsOf, queriesOf, contentColOf, hcs, hgt, h0, h1]

/-! ### The claims -/

/-- Concrete instances used by the witnesses and counterexamples. -/
def cfgKey : String → String → String := fun _ _ => "sk-test"

def cfgNone : String → String → String := fun _ _ => ""

def envNone : String → Option String := fun _ => none

def okOrc : Nat → Nat → CallResult := fun _ _ => .success "ok"

def allFailOrc : Nat → Nat → CallResult := fun _ _ => .failure "rate limit"

/-- A remote call that raises on the first two attempts of every row and
succeeds from the third attempt on. -/
def failTwiceOrc : Nat → Nat → CallResult := fun _ a =>
  if a < 2 then .failure "boom" else .success "good"

def oneRowDF : DataFrame := ⟨["query"], [["q1"]]⟩

def twoRowDF : DataFrame := ⟨["query"], [["q1", "q2"]]⟩

def threeColDF : DataFrame :=
  ⟨["query", "content", "prompt"], [["q1"], ["c1"], ["Be terse."]]⟩

def emptyRows3DF : DataFrame := ⟨["query", "content", "prompt"], [[], [], []]⟩

def emptyRows1DF : DataFrame := ⟨["query"], [[]]⟩

def outC1 : ForwardOutput :=
  ⟨⟨["response"], [["boom"]]⟩,
   [⟨rowParams "gpt-3.5-turbo" 0 none "q1" "q1", "boom", 1, []⟩], "sk-test"⟩

def outC2 : ForwardOutput :=
  ⟨⟨["response"], [["rate limit", "rate limit"]]⟩,
   [⟨rowParams "gpt-3.5-turbo" 0 none "q1" "q1", "rate limit", 1, []⟩,
    ⟨rowParams "gpt-3.5-turbo" 0 none "q2" "q2", "rate limit", 1, []⟩],
   "sk-test"⟩

def outC5 : ForwardOutput :=
  ⟨⟨["response"], [["ok", "ok"]]⟩,
   [⟨rowParams "gpt-3.5-turbo" 0 none "q1" "q1", "ok", 1, []⟩,
    ⟨rowParams "gpt-3.5-turbo" 0 none "q2" "q2", "ok", 1, []⟩],
   "sk-test"⟩

def outC6 : ForwardOutput :=
  ⟨⟨["response"], [["ok"]]⟩,
   [⟨rowParams "gpt-3.5-turbo" 0 (some "Be terse.") "q1" "c1", "ok", 1, []⟩],
   "sk-test"⟩

/-- Claim C1 counterexample: with the remote call failing on the first two
attempts and succeeding on the third, `forward` returns the stringified
first error after a single attempt — not the success value after three —
because the attempt body catches every exception itself. -/
theorem chatgpt_C1_counterexample :
    forward "gpt-3.5-turbo" 0 cfgKey envNone failTwiceOrc oneRowDF =
      .ok ⟨⟨["response"], [["boom"]]⟩,
           [⟨rowParams "gpt-3.5-turbo" 0 none "q1" "q1", "boom", 1, []⟩],
           "sk-test"⟩ ∧
    ("boom" : String) ≠ "good" ∧ (1 : Nat) ≠ 3 :=
  ⟨rfl, by decide, by decide⟩

/-- Claim C1, amended: for every row whose remote call fails on the first
two attempts and succeeds on the third, `forward` makes exactly ONE attempt
for that row, sleeps never, and the output row equals the stringified first
error; the retry wrapper is configured with 6 tries and delay 20 but never
retries, since the attempt body converts every exception into an answer. -/
theorem chatgpt_C1_amended (model : String) (temperature : Rat)
    (cfg : String → String → String) (env : String → Option String)
    (orc : Nat → Nat → CallResult) (df : DataFrame) (out : ForwardOutput)
    (r : Nat) (e0 e1 s : String)
    (h0 : orc r 0 = .failure e0) (h1 : orc r 1 = .failure e1)
    (h2 : orc r 2 = .success s)
    (hout : forward model temperature cfg env orc df = .ok out)
    (hr : r < out.log.length) :
    out.log[r]?.map RowLog.answer = some e0 ∧
    out.log[r]?.map RowLog.attempts = some 1 ∧
    out.log[r]?.map RowLog.delays = some [] ∧
    completion_with_backoff (orc r) =
      retryRun 6 20 (fun a => completionBody (orc r a)) := by
  obtain ⟨-, -, p, -, hco⟩ := forward_ok_inv _ _ _ _ _ _ _ hout
  subst hco
  have hlen : r < (rowsOf df).length := by
    have hl := logSpec_length model temperature p orc (rowsOf df) 0
    simpa [hl] using hr
  have hrow := List.getElem?_eq_getElem hlen
  refine ⟨?_, ?_, ?_, rfl⟩ <;>
    simp [logSpec_getElem?, hrow, firstAnswer, h0]

theorem chatgpt_C1_witness :
    outC1.log[0]?.map RowLog.answer = some "boom" ∧
    outC1.log[0]?.map RowLog.attempts = some 1 ∧
    outC1.log[0]?.map RowLog.delays = some [] ∧
    completion_with_backoff (failTwiceOrc 0) =
      retryRun 6 20 (fun a => completionBody (failTwiceOrc 0 a)) :=
  chatgpt_C1_amended "gpt-3.5-turbo" 0 cfgKey envNone failTwiceOrc oneRowDF
    outC1 0 "boom" "boom" "good" rfl rfl rfl rfl (by decide)

/-- Claim C2: when the remote call raises on every attempt of a row,
`forward` still succeeds, that row's output entry is the stringified error
of the (only) attempt, and the whole batch is processed. -/
theorem chatgpt_C2 (model : String) (temperature : Rat)
    (cfg : String → String → String) (env : String → Option String)
    (orc : Nat → Nat → CallResult) (df : DataFrame) (out : ForwardOutput)
    (r : Nat) (err : Nat → String)
    (hfail : ∀ a, orc r a = .failure (err a))
    (hout : forward model temperature cfg env orc df = .ok out)
    (hr : r < out.log.length) :
    out.log[r]?.map RowLog.answer = some (err 0) ∧
    out.output.cols = [out.log.map RowLog.answer] ∧
    out.log.length = (rowsOf df).length := by
  obtain ⟨-, -, p, -, hco⟩ := forward_ok_inv _ _ _ _ _ _ _ hout
  subst hco
  have hlog := logSpec_length model temperature p orc (rowsOf df) 0
  have hlen : r < (rowsOf df).length := by simpa [hlog] using hr
  have hrow := List.getElem?_eq_getElem hlen
  refine ⟨?_, rfl, hlog⟩
  simp [logSpec_getElem?, hrow, firstAnswer, hfail 0]

theorem chatgpt_C2_witness :
    outC2.log[0]?.map RowLog.answer = some "rate limit" ∧
    outC2.output.cols = [outC2.log.map RowLog.answer] ∧
    outC2.log.length = (rowsOf twoRowDF).length :=
  chatgpt_C2 "gpt-3.5-turbo" 0 cfgKey envNone allFailOrc twoRowDF outC2 0
    (fun _ => "rate limit") (fun _ => rfl) rfl (by decide)

/-- Claim C3: the credential is the configuration-store value
`(third_party, OPENAI_KEY)` when non-empty, else the `OPENAI_KEY`
environment variable; when both are empty `forward` fails fatally with the
descriptive configuration error before doing anything else, and on success
the key `forward` registered is that resolved, non-empty value. -/
theorem chatgpt_C3 (model : String) (temperature : Rat)
    (cfg : String → String → String) (env : String → Option String)
    (orc : Nat → Nat → CallResult) (df : DataFrame) :
    (apiKeyOf cfg env =
      if (cfg "third_party" "OPENAI_KEY").length = 0
      then (env "OPENAI_KEY").getD "" else cfg "third_party" "OPENAI_KEY") ∧
    ((cfg "third_party" "OPENAI_KEY").length = 0 →
      ((env "OPENAI_KEY").getD "").length = 0 →
      forward model temperature cfg env orc df =
        .error (.assertionError apiKeyErrMsg)) ∧
    (∀ out, forward model temperature cfg env orc df = .ok out →
      out.apiKey = apiKeyOf cfg env ∧ out.apiKey.length ≠ 0) := by
  refine ⟨rfl, ?_, ?_⟩
  · intro h1 h2
    apply forward_err_key
    simp [apiKeyOf, h1, h2]
  · intro out hout
    obtain ⟨hk, -, p, -, hco⟩ := forward_ok_inv _ _ _ _ _ _ _ hout
    subst hco
    exact ⟨rfl, hk⟩

theorem chatgpt_C3_witness :
    forward "gpt-3.5-turbo" 0 cfgNone envNone okOrc oneRowDF =
      .error (.assertionError apiKeyErrMsg) :=
  (chatgpt_C3 "gpt-3.5-turbo" 0 cfgNone envNone okOrc oneRowDF).2.1 rfl rfl

/-- Claim C4: `setup` succeeds exactly on the six supported models, storing
the model and temperature as the adapter state, and fails fatally on any
other model; the defaults are `model = "gpt-3.5-turbo"`, `temperature = 0`. -/
theorem chatgpt_C4 (st : ChatGPTState) (model : String) (temperature : Rat) :
    (model ∈ _VALID_CHAT_COMPLETION_MODEL →
      setup st model temperature =
        ({ model := some model, temperature := some temperature }, none)) ∧
    (model ∉ _VALID_CHAT_COMPLETION_MODEL →
      setup st model temperature =
        (st, some (.assertionError ("Unsupported ChatGPT " ++ model)))) ∧
    setup st = setup st "gpt-3.5-turbo" 0 :=
  ⟨fun h => by simp [setup, h], fun h => by simp [setup, h], rfl⟩

theorem chatgpt_C4_witness :
    setup ⟨none, none⟩ "gpt-4" 0 =
      ({ model := some "gpt-4", temperature := some (0 : Rat) }, none) ∧
    setup ⟨none, none⟩ "gpt-5" 0 =
      (⟨none, none⟩, some (.assertionError ("Unsupported ChatGPT " ++ "gpt-5"))) :=
  ⟨(chatgpt_C4 ⟨none, none⟩ "gpt-4" 0).1 (by decide),
   (chatgpt_C4 ⟨none, none⟩ "gpt-5" 0).2.1 (by decide)⟩

/-- Claim C9: when `setup` is called with an unsupported model, the
assertion fires before either assignment, so the adapter state — both the
model field and the temperature field — is exactly what it was before. -/
theorem chatgpt_C9 (st : ChatGPTState) (model : String) (temperature : Rat)
    (h : model ∉ _VALID_CHAT_COMPLETION_MODEL) :
    (setup st model temperature).1 = st ∧
    (setup st model temperature).1.model = st.model ∧
    (setup st model temperature).1.temperature = st.temperature := by
  simp [setup, h]

theorem chatgpt_C9_witness :
    (setup ⟨some "gpt-4", some 1⟩ "gpt-5" 0).1 = ⟨some "gpt-4", some 1⟩ ∧
    (setup ⟨some "gpt-4", some 1⟩ "gpt-5" 0).1.model = some "gpt-4" ∧
    (setup ⟨some "gpt-4", some 1⟩ "gpt-5" 0).1.temperature = some 1 :=
  chatgpt_C9 ⟨some "gpt-4", some 1⟩ "gpt-5" 0 (by decide)

/-- Claim C10 counterexample: a zero-row batch with the full three columns
and a non-empty credential makes `forward` raise `IndexError` at
`text_df.iloc[0, 2]` instead of returning an empty `response` dataframe. -/
theorem chatgpt_C10_counterexample :
    forward "gpt-3.5-turbo" 0 cfgKey envNone okOrc emptyRows3DF =
      .error .indexError := rfl

/-- Claim C10, amended: for every zero-row batch with one or two columns
and a non-empty credential, `forward` issues no remote call and returns the
single-column `response` dataframe with zero rows; with three columns (or
none) a zero-row batch instead raises `IndexError`. -/
theorem chatgpt_C10_amended (model : String) (temperature : Rat)
    (cfg : String → String → String) (env : String → Option String)
    (orc : Nat → Nat → CallResult) (df : DataFrame)
    (hk : ¬ (apiKeyOf cfg env).length = 0)
    (c0 : List String) (rest : List (List String)) (hc : df.cols = c0 :: rest)
    (hle : df.cols.length ≤ 2)
    (hz : ∀ col ∈ df.cols, col.length = 0) :
    forward model temperature cfg env orc df =
      .ok ⟨⟨["response"], [[]]⟩, [], apiKeyOf cfg env⟩ := by
  have hp : promptOf df.cols = .ok none := by
    have hn : ¬ df.cols.length > 2 := by omega
    simp [promptOf, hn]
  have h0 : c0 = [] :=
    List.length_eq_zero.mp (hz c0 (by rw [hc]; exact List.mem_cons_self c0 rest))
  rw [forward_ok_eq model temperature cfg env orc df hk c0 rest hc none hp]
  have hrows : rowsOf df = [] := by
    simp [rowsOf, queriesOf, hc, h0]
  rw [hrows]
  rfl

theorem chatgpt_C10_witness :
    forward "gpt-3.5-turbo" 0 cfgKey envNone okOrc emptyRows1DF =
      .ok ⟨⟨["response"], [[]]⟩, [], apiKeyOf cfgKey envNone⟩ :=
  chatgpt_C10_amended "gpt-3.5-turbo" 0 cfgKey envNone okOrc emptyRows1DF
    (by decide) [] [] rfl (by decide) (by decide)

/-- Claim C5: whenever `forward` completes, the output dataframe has the
single column `response`, as many rows as the input batch, and its row `i`
is the answer `completion_with_backoff` produced for input row `i` — rows
are processed in input order. -/
theorem chatgpt_C5 (model : String) (temperature : Rat)
    (cfg : String → String → String) (env : String → Option String)
    (orc : Nat → Nat → CallResult) (df : DataFrame) (n : Nat)
    (out : ForwardOutput)
    (hwf : ∀ col ∈ df.cols, col.length = n)
    (hout : forward model temperature cfg env orc df = .ok out) :
    out.output.names = ["response"] ∧
    out.output.cols = [out.log.map RowLog.answer] ∧
    (out.log.map RowLog.answer).length = n ∧
    ∀ i, i < n → (out.log.map RowLog.answer)[i]? = some (firstAnswer (orc i)) := by
  obtain ⟨-, hne, p, -, hco⟩ := forward_ok_inv _ _ _ _ _ _ _ hout
  subst hco
  have hlen : (rowsOf df).length = n := rowsOf_length df n hwf hne
  refine ⟨rfl, rfl, ?_, ?_⟩
  · simp [logSpec_length, hlen]
  · intro i hi
    have hi2 : i < (rowsOf df).length := by omega
    have hrow := List.getElem?_eq_getElem hi2
    simp [logSpec_getElem?, hrow]

theorem chatgpt_C5_witness :
    outC5.output.names = ["response"] ∧
    (outC5.log.map RowLog.answer).length = 2 := by
  have h := chatgpt_C5 "gpt-3.5-turbo" 0 cfgKey envNone okOrc twoRowDF 2 outC5
    (by decide) rfl
  exact ⟨h.1, h.2.2.1⟩

/-- Claim C6: with at least three columns, every row's request carries as
system-message content the value in row 0 of column 2; with fewer than
three columns it carries the default instruction. -/
theorem chatgpt_C6 (model : String) (temperature : Rat)
    (cfg : String → String → String) (env : String → Option String)
    (orc : Nat → Nat → CallResult) (df : DataFrame) (out : ForwardOutput)
    (p : String)
    (hout : forward model temperature cfg env orc df = .ok out) :
    (df.cols.length > 2 → (df.cols.getD 2 [])[0]? = some p →
      ∀ l ∈ out.log, l.params.messages[0]? = some ⟨"system", p⟩) ∧
    (df.cols.length ≤ 2 →
      ∀ l ∈ out.log, l.params.messages[0]? =
        some ⟨"system",
              "You are a helpful assistant that accomplishes user tasks."⟩) := by
  obtain ⟨-, -, p0, hp, hco⟩ := forward_ok_inv _ _ _ _ _ _ _ hout
  subst hco
  constructor
  · intro h2 hcell l hl
    have hpp : p0 = some p := by
      rw [promptOf, if_pos h2, hcell] at hp
      exact (Except.ok.inj hp).symm
    subst hpp
    simpa using logSpec_sys model temperature (some p) orc (rowsOf df) 0 l hl
  · intro h2 l hl
    have hpp : p0 = none := by
      rw [promptOf, if_neg (by omega)] at hp
      exact (Except.ok.inj hp).symm
    subst hpp
    simpa [defaultSysPrompt] using
      logSpec_sys model temperature none orc (rowsOf df) 0 l hl

theorem chatgpt_C6_witness :
    (⟨rowParams "gpt-3.5-turbo" 0 (some "Be terse.") "q1" "c1",
      "ok", 1, []⟩ : RowLog).params.messages[0]? =
      some ⟨"system", "Be terse."⟩ := by
  have h := chatgpt_C6 "gpt-3.5-turbo" 0 cfgKey envNone okOrc threeColDF outC6
    "Be terse." rfl
  exact h.1 (by decide) rfl _ (List.mem_cons_self _ _)

/-- Claim C7: with exactly one column, each row's content equals that row's
query — the context user message and the task user message embed the same
string; with two or more columns the content comes from column 1. -/
theorem chatgpt_C7 (model : String) (temperature : Rat)
    (cfg : String → String → String) (env : String → Option String)
    (orc : Nat → Nat → CallResult) (df : DataFrame) (out : ForwardOutput)
    (i : Nat) (q : String)
    (hout : forward model temperature cfg env orc df = .ok out) :
    (df.cols.length = 1 → (df.cols.headD [])[i]? = some q →
      out.log[i]?.map (fun l => l.params.messages[1]?) =
        some (some ⟨"user", "Here is some context : " ++ q⟩) ∧
      out.log[i]?.map (fun l => l.params.messages[2]?) =
        some (some ⟨"user", "Complete the following task: " ++ q⟩)) ∧
    (df.cols.length ≥ 2 → ∀ c, (df.cols.getD 1 [])[i]? = some c →
      (df.cols.headD [])[i]? = some q →
      out.log[i]?.map (fun l => l.params.messages[1]?) =
        some (some ⟨"user", "Here is some context : " ++ c⟩)) := by
  obtain ⟨-, -, p, -, hco⟩ := forward_ok_inv _ _ _ _ _ _ _ hout
  subst hco
  constructor
  · intro h1 hq
    have hcontent : contentColOf df.cols = df.cols.headD [] := by
      rw [contentColOf, if_neg (by omega)]
    have hrow : (rowsOf df)[i]? = some (q, q) := by
      rw [rowsOf, queriesOf, hcontent, zip_getElem?_self, hq]
      rfl
    constructor <;> simp [logSpec_getElem?, hrow, rowParams]
  · intro h2 c hc hq
    have hcontent : contentColOf df.cols = df.cols.getD 1 [] := by
      rw [contentColOf, if_pos (by omega)]
    have hrow : (rowsOf df)[i]? = some (q, c) := by
      rw [rowsOf, queriesOf, hcontent]
      exact zip_getElem?_of _ _ i q c hq hc
    simp [logSpec_getElem?, hrow, rowParams]

theorem chatgpt_C7_witness :
    outC5.log[0]?.map (fun l => l.params.messages[1]?) =
      some (some ⟨"user", "Here is some context : " ++ "q1"⟩) ∧
    outC5.log[0]?.map (fun l => l.params.messages[2]?) =
      some (some ⟨"user", "Complete the following task: " ++ "q1"⟩) := by
  have h := chatgpt_C7 "gpt-3.5-turbo" 0 cfgKey envNone okOrc twoRowDF outC5
    0 "q1" rfl
  exact h.1 rfl rfl

/-- Claim C8: every row's request consists of exactly three messages in
order — the system message, the context user message
`"Here is some context : {content}"`, then the task user message
`"Complete the following task: {query}"` — and carries the configured
model and temperature. -/
theorem chatgpt_C8 (model : String) (temperature : Rat)
    (cfg : String → String → String) (env : String → Option String)
    (orc : Nat → Nat → CallResult) (df : DataFrame) (out : ForwardOutput)
    (i : Nat) (q c : String) (p : Option String)
    (hout : forward model temperature cfg env orc df = .ok out)
    (hp : promptOf df.cols = .ok p)
    (hq : (queriesOf df.cols)[i]? = some q)
    (hc : (contentColOf df.cols)[i]? = some c) :
    out.log[i]?.map RowLog.params = some
      { model := model, temperature := temperature,
        messages := [⟨"system", p.getD defaultSysPrompt⟩,
                     ⟨"user", "Here is some context : " ++ c⟩,
                     ⟨"user", "Complete the following task: " ++ q⟩] } := by
  obtain ⟨-, -, p0, hp0, hco⟩ := forward_ok_inv _ _ _ _ _ _ _ hout
  subst hco
  have hpp : p0 = p := by
    rw [hp0] at hp
    exact Except.ok.inj hp
  subst hpp
  have hrow : (rowsOf df)[i]? = some (q, c) :=
    zip_getElem?_of _ _ i q c hq hc
  rcases p0 with _ | pv <;>
    simp [logSpec_getElem?, hrow, rowParams, Option.getD]

theorem chatgpt_C8_witness :
    outC6.log[0]?.map RowLog.params = some
      { model := "gpt-3.5-turbo", temperature := (0 : Rat),
        messages := [⟨"system", (some "Be terse.").getD defaultSysPrompt⟩,
                     ⟨"user", "Here is some context : " ++ "c1"⟩,
                     ⟨"user", "Complete the following task: " ++ "q1"⟩] } :=
  chatgpt_C8 "gpt-3.5-turbo" 0 cfgKey envNone okOrc threeColDF outC6
    0 "q1" "c1" (some "Be terse.") rfl rfl rfl rfl

end EvaDB
